import Mathlib

/-
Shallow embedding of the footron_protocol package
(src/footron_protocol/messages.py and src/footron_protocol/errors.py).

Python dicts are modelled as association lists with unique keys
(List (String × Py)); Python runtime values are modelled by the
inductive type Py.  Dataclass instances are modelled uniformly as a
class identifier (the MessageType whose entry in message_type_map is
that class) together with the ordered field assignment produced by the
dataclass constructor.  Exceptions are modelled with Except over an
inductive error type that separates the protocol errors declared in
errors.py from the builtin ValueError / TypeError / AttributeError
that the interpreter itself raises.
-/

/-- The MessageType enum of messages.py. -/
inductive MessageType where
  | HEARTBEAT_APP
  | HEARTBEAT_CLIENT
  | CONNECT
  | ACCESS
  | APPLICATION_CLIENT
  | APPLICATION_APP
  | ERROR
  | DISPLAY_SETTINGS
  | LIFECYCLE
deriving DecidableEq

/-- The .value string of each MessageType member. -/
def tag : MessageType → String
  | .HEARTBEAT_APP => "ahb"
  | .HEARTBEAT_CLIENT => "chb"
  | .CONNECT => "con"
  | .ACCESS => "acc"
  | .APPLICATION_CLIENT => "cap"
  | .APPLICATION_APP => "app"
  | .ERROR => "err"
  | .DISPLAY_SETTINGS => "dse"
  | .LIFECYCLE => "lcy"

/-- Enum lookup by value, MessageType(s) for a string s: some member on a
known tag string, none when the enum constructor would raise ValueError. -/
def tagOf (s : String) : Option MessageType :=
  if s = "ahb" then some .HEARTBEAT_APP
  else if s = "chb" then some .HEARTBEAT_CLIENT
  else if s = "con" then some .CONNECT
  else if s = "acc" then some .ACCESS
  else if s = "cap" then some .APPLICATION_CLIENT
  else if s = "app" then some .APPLICATION_APP
  else if s = "err" then some .ERROR
  else if s = "dse" then some .DISPLAY_SETTINGS
  else if s = "lcy" then some .LIFECYCLE
  else none

/-- Python runtime values as they occur in protocol documents: None,
bools, ints, strings, lists, nested dicts, and MessageType enum members
(which deserialize stores back into the input dict). -/
inductive Py where
  | none
  | bool (b : Bool)
  | int (n : Int)
  | str (s : String)
  | list (xs : List Py)
  | dict (entries : List (String × Py))
  | enum (t : MessageType)

/-- Errors: the ProtocolError subclasses of errors.py that the codec can
raise, plus the builtin Python exceptions the interpreter raises. -/
inductive PyErr where
  | invalidMessageSchema (msg : String)
  | unknownMessageType (msg : String)
  | valueError (msg : String)
  | typeError (msg : String)
  | attributeError (msg : String)

/-- Dict lookup d[k] (as an Option). -/
def lookupKey (k : String) : List (String × Py) → Option Py
  | [] => Option.none
  | p :: rest => if p.1 = k then some p.2 else lookupKey k rest

/-- Dict assignment d[k] = v: overwrite in place when the key exists
(keeping its position, as Python dicts do), else append. -/
def setKey (k : String) (v : Py) : List (String × Py) → List (String × Py)
  | [] => [(k, v)]
  | p :: rest => if p.1 = k then (k, v) :: rest else p :: setKey k v rest

/-- Dict deletion del d[k] (keys are unique, so removing every entry at
the key is the same as removing the single entry Python removes). -/
def delKey (k : String) : List (String × Py) → List (String × Py)
  | [] => []
  | p :: rest => if p.1 = k then delKey k rest else p :: delKey k rest

def PROTOCOL_VERSION : Int := 1

def FIELD_MSG_TYPE : String := "type"

/-- The dataclass field schema of each message class, in constructor
order (reverse-MRO order for the multiple-inheritance classes), with
true marking a field that has no default (required keyword). -/
def schemaFields : MessageType → List (String × Bool)
  | .HEARTBEAT_APP =>
      [("client", true), ("app", true), ("version", true), ("type", true),
       ("up", true)]
  | .HEARTBEAT_CLIENT =>
      [("client", true), ("app", true), ("version", true), ("type", true),
       ("up", true), ("clients", true)]
  | .CONNECT =>
      [("version", true), ("type", true), ("app", true)]
  | .ACCESS =>
      [("version", true), ("type", true), ("accepted", true),
       ("client", false), ("app", false), ("reason", false)]
  | .APPLICATION_CLIENT =>
      [("version", true), ("type", true), ("body", true), ("req", false)]
  | .APPLICATION_APP =>
      [("client", true), ("app", true), ("version", true), ("type", true),
       ("body", true), ("req", false)]
  | .ERROR =>
      [("version", true), ("type", true), ("error", true)]
  | .DISPLAY_SETTINGS =>
      [("version", true), ("type", true), ("settings", true)]
  | .LIFECYCLE =>
      [("version", true), ("type", true), ("paused", true)]

def fieldNames (t : MessageType) : List String :=
  (schemaFields t).map Prod.fst

/-- The key set of message_type_map; every MessageType member has an
entry, and the class mapped to t has class attribute type = t. -/
def message_type_map : List MessageType :=
  [.HEARTBEAT_APP, .HEARTBEAT_CLIENT, .CONNECT, .ACCESS,
   .APPLICATION_CLIENT, .APPLICATION_APP, .ERROR, .DISPLAY_SETTINGS,
   .LIFECYCLE]

/-- A dataclass instance: the class (identified by its MessageType) and
its ordered field values. -/
structure MessageObj where
  cls : MessageType
  fields : List (String × Py)

def dupVersionMsg : String :=
  "got multiple values for keyword argument version"

def unexpectedKwMsg (k : String) : String :=
  "got an unexpected keyword argument " ++ k

def missingArgMsg (k : String) : String :=
  "missing required keyword argument " ++ k

/-- BaseMessage.create for the class registered at t, followed by the
dataclass constructor call cls(type=cls.type, version=PROTOCOL_VERSION,
**kwargs).  create deletes only the type key from kwargs; a version key
left in kwargs collides with the explicit version argument and the call
raises TypeError before the constructor body runs.  The constructor then
rejects unexpected keywords and missing required fields with TypeError,
and performs no runtime type checking of field values. -/
def create (t : MessageType) (kwargs : List (String × Py)) :
    Except PyErr MessageObj :=
  let kw := delKey FIELD_MSG_TYPE kwargs
  if (lookupKey "version" kw).isSome then
    Except.error (PyErr.typeError dupVersionMsg)
  else
    let callKw : List (String × Py) :=
      (FIELD_MSG_TYPE, Py.enum t) :: ("version", Py.int PROTOCOL_VERSION) :: kw
    match kw.find? (fun p => !(fieldNames t).any (fun n => decide (n = p.1))) with
    | some p => Except.error (PyErr.typeError (unexpectedKwMsg p.1))
    | Option.none =>
      match (schemaFields t).find?
          (fun f => f.2 && (lookupKey f.1 callKw).isNone) with
      | some f => Except.error (PyErr.typeError (missingArgMsg f.1))
      | Option.none =>
        Except.ok ⟨t, (schemaFields t).map
          (fun f => (f.1, (lookupKey f.1 callKw).getD Py.none))⟩

/-- MessageType(v) on an arbitrary value: a member is returned as is, a
known tag string resolves to its member, anything else raises
ValueError. -/
def pyToMessageType : Py → Option MessageType
  | .enum t => some t
  | .str s => tagOf s
  | _ => Option.none

/-- deserialize of messages.py.  Returns the result together with the
final state of the input dict, because the statement
data[FIELD_MSG_TYPE] = MessageType(data[FIELD_MSG_TYPE]) mutates the
caller-supplied document in place before dispatch. -/
def deserialize (data : List (String × Py)) :
    Except PyErr MessageObj × List (String × Py) :=
  match lookupKey FIELD_MSG_TYPE data with
  | Option.none =>
    (Except.error (PyErr.invalidMessageSchema
      "Message does not contain required field type"), data)
  | some v =>
    match pyToMessageType v with
    | Option.none =>
      (Except.error (PyErr.valueError "is not a valid MessageType"), data)
    | some t =>
      let data2 := setKey FIELD_MSG_TYPE (Py.enum t) data
      if message_type_map.any (fun x => decide (x = t)) then
        (create t data2, data2)
      else
        (Except.error (PyErr.unknownMessageType
          ("Message type " ++ tag t ++ " is unrecognized")), data2)

/-- serialize of messages.py: the asdict field mapping with the type
entry replaced by data.type.value.  The attribute accesses can only fail
on an ill-formed instance (modelled by the error branches). -/
def serialize (m : MessageObj) : Except PyErr (List (String × Py)) :=
  match lookupKey FIELD_MSG_TYPE m.fields with
  | some (Py.enum t) =>
    Except.ok (setKey FIELD_MSG_TYPE (Py.str (tag t)) m.fields)
  | some _ => Except.error (PyErr.attributeError "value")
  | Option.none => Except.error (PyErr.attributeError "type")

def exceptOk {α : Type} : Except PyErr α → Bool
  | Except.ok _ => true
  | Except.error _ => false

def isTypeError {α : Type} : Except PyErr α → Bool
  | Except.error (PyErr.typeError _) => true
  | _ => false

def isInvalidSchemaErr {α : Type} : Except PyErr α → Bool
  | Except.error (PyErr.invalidMessageSchema _) => true
  | _ => false

/-
Well-typedness of an in-memory instance, from the type annotations of
the dataclass fields: bool fields hold bools, identity strings hold
strings (or None when Optional), clients holds a list of strings,
version holds an int, type holds the class enum member, and body /
settings are annotated Any.
-/

def Py.isInt : Py → Bool
  | .int _ => true
  | _ => false

def Py.isBool : Py → Bool
  | .bool _ => true
  | _ => false

def Py.isStr : Py → Bool
  | .str _ => true
  | _ => false

def Py.isOptStr : Py → Bool
  | .str _ => true
  | .none => true
  | _ => false

def Py.isStrList : Py → Bool
  | .list xs => xs.all Py.isStr
  | _ => false

/-- Whether the dataclass at t declares the named field without a
default value. -/
def requiredField (t : MessageType) (name : String) : Bool :=
  match (schemaFields t).find? (fun f => decide (f.1 = name)) with
  | some f => f.2
  | Option.none => false

/-- Whether value v conforms to the type annotation of the named field
in the class at t. -/
def fieldTypeOk (t : MessageType) (name : String) (v : Py) : Bool :=
  if name = "type" then
    (match v with
     | Py.enum u => decide (u = t)
     | _ => false)
  else if name = "version" then v.isInt
  else if name = "up" then v.isBool
  else if name = "paused" then v.isBool
  else if name = "accepted" then v.isBool
  else if name = "clients" then v.isStrList
  else if name = "client" then
    (if requiredField t "client" then v.isStr else v.isOptStr)
  else if name = "app" then
    (if requiredField t "app" then v.isStr else v.isOptStr)
  else if name = "reason" then v.isOptStr
  else if name = "req" then v.isOptStr
  else if name = "error" then v.isStr
  else true

/-- The field assignment matches the schema entry for entry, in order,
with every value conforming to its annotation. -/
def fieldsMatch (t : MessageType) : List (String × Bool) → List (String × Py) → Bool
  | [], [] => true
  | s :: ss, p :: ps =>
    decide (p.1 = s.1) && fieldTypeOk t s.1 p.2 && fieldsMatch t ss ps
  | _, _ => false

/-- A well-typed, fully constructed instance: its fields are exactly
the dataclass fields of its class, in constructor order, each holding a
value of the annotated type. -/
def wellTyped (m : MessageObj) : Bool :=
  fieldsMatch m.cls (schemaFields m.cls) m.fields

/- Association-list lemmas about the dict operations. -/

theorem lookupKey_setKey_self (k : String) (v : Py) (l : List (String × Py)) :
    lookupKey k (setKey k v l) = some v := by
  induction l with
  | nil => simp [setKey, lookupKey]
  | cons p rest ih =>
    by_cases h : p.1 = k <;> simp [setKey, lookupKey, h, ih]

theorem lookupKey_setKey_ne (j k : String) (v : Py) (l : List (String × Py))
    (h : j ≠ k) : lookupKey k (setKey j v l) = lookupKey k l := by
  have hkj : ¬ (k = j) := fun hc => h hc.symm
  induction l with
  | nil => simp [setKey, lookupKey, h]
  | cons p rest ih =>
    by_cases hp : p.1 = j
    · have hk : ¬ (p.1 = k) := fun hc => h (hp.symm.trans hc)
      simp [setKey, lookupKey, hp, hk, h, hkj]
    · by_cases hk : p.1 = k <;> simp [setKey, lookupKey, hp, hk, ih, hkj]

theorem lookupKey_delKey_ne (j k : String) (l : List (String × Py))
    (h : j ≠ k) : lookupKey k (delKey j l) = lookupKey k l := by
  have hkj : ¬ (k = j) := fun hc => h hc.symm
  induction l with
  | nil => rfl
  | cons p rest ih =>
    by_cases hp : p.1 = j
    · have hk : ¬ (p.1 = k) := fun hc => h (hp.symm.trans hc)
      simp [delKey, lookupKey, hp, hk, ih, h]
    · by_cases hk : p.1 = k <;> simp [delKey, lookupKey, hp, hk, ih, hkj]

theorem lookupKey_mem (k : String) (v : Py) (l : List (String × Py))
    (h : lookupKey k l = some v) : (k, v) ∈ l := by
  induction l with
  | nil => cases h
  | cons p rest ih =>
    by_cases hp : p.1 = k
    · simp only [lookupKey, if_pos hp] at h
      have h2 : p.2 = v := Option.some.inj h
      exact List.mem_cons.mpr (Or.inl (by rw [← hp, ← h2]))
    · simp only [lookupKey, if_neg hp] at h
      exact List.mem_cons_of_mem p (ih h)

theorem find?_isSome_of_mem {α : Type} (l : List α) (p : α → Bool) (x : α)
    (hx : x ∈ l) (hp : p x = true) : (l.find? p).isSome = true := by
  induction l with
  | nil => cases hx
  | cons a as ih =>
    cases hpa : p a with
    | true => simp [List.find?, hpa]
    | false =>
      rcases List.mem_cons.mp hx with heq | hmem
      · subst heq; rw [hp] at hpa; cases hpa
      · simp only [List.find?, hpa]
        exact ih hmem

theorem map_fst_setKey (k : String) (v w : Py) (l : List (String × Py))
    (h : lookupKey k l = some w) :
    (setKey k v l).map Prod.fst = l.map Prod.fst := by
  induction l with
  | nil => cases h
  | cons p rest ih =>
    by_cases hp : p.1 = k
    · simp [setKey, hp]
    · simp [lookupKey, hp] at h
      simp [setKey, hp, ih h]

/- Schema facts. -/

theorem mem_message_type_map (t : MessageType) :
    message_type_map.any (fun x => decide (x = t)) = true := by
  cases t <;> rfl

theorem tagOf_tag (t : MessageType) : tagOf (tag t) = some t := by
  cases t <;> rfl

theorem schema_names_nodup (t : MessageType) :
    ((schemaFields t).map Prod.fst).Nodup := by
  cases t <;> decide

theorem type_mem_schema (t : MessageType) :
    (FIELD_MSG_TYPE, true) ∈ schemaFields t := by
  cases t <;> decide

theorem version_mem_schema (t : MessageType) :
    ("version", true) ∈ schemaFields t := by
  cases t <;> decide

theorem type_in_names (t : MessageType) :
    (fieldNames t).any (fun n => decide (n = FIELD_MSG_TYPE)) = true := by
  cases t <;> rfl

theorem version_in_names (t : MessageType) :
    (fieldNames t).any (fun n => decide (n = "version")) = true := by
  cases t <;> rfl

/- Every schema entry of a well-typed instance can be looked up and
conforms to its annotation. -/

theorem fieldsMatch_lookup (t : MessageType) (spec : List (String × Bool))
    (fields : List (String × Py)) (hm : fieldsMatch t spec fields = true)
    (hnd : (spec.map Prod.fst).Nodup)
    (name : String) (req : Bool) (hmem : (name, req) ∈ spec) :
    ∃ v, lookupKey name fields = some v ∧ fieldTypeOk t name v = true := by
  induction spec generalizing fields with
  | nil => cases hmem
  | cons s ss ih =>
    cases fields with
    | nil => simp [fieldsMatch] at hm
    | cons p ps =>
      simp only [fieldsMatch, Bool.and_eq_true, decide_eq_true_eq] at hm
      obtain ⟨⟨hkey, hty⟩, hrest⟩ := hm
      simp only [List.map_cons, List.nodup_cons] at hnd
      obtain ⟨hs1, hnd2⟩ := hnd
      rcases List.mem_cons.mp hmem with heq | hmem2
      · have hname : name = s.1 := congrArg Prod.fst heq
        refine ⟨p.2, ?_, ?_⟩
        · simp [lookupKey, hkey, hname]
        · rw [hname]; exact hty
      · have hname_ne : ¬ (s.1 = name) := fun hc =>
          hs1 (hc ▸ List.mem_map_of_mem Prod.fst hmem2)
        have hpk : ¬ (p.1 = name) := fun hc => hname_ne (hkey ▸ hc)
        rw [show lookupKey name (p :: ps) = lookupKey name ps by
          simp [lookupKey, hpk]]
        exact ih ps hrest hnd2 hmem2

theorem wellTyped_type_lookup (m : MessageObj) (h : wellTyped m = true) :
    lookupKey FIELD_MSG_TYPE m.fields = some (Py.enum m.cls) := by
  obtain ⟨v, hl, hty⟩ := fieldsMatch_lookup m.cls (schemaFields m.cls) m.fields h
    (schema_names_nodup m.cls) FIELD_MSG_TYPE true (type_mem_schema m.cls)
  have hv : v = Py.enum m.cls := by
    cases v <;> simp [fieldTypeOk, FIELD_MSG_TYPE] at hty
    rw [hty]
  rw [hl, hv]

theorem wellTyped_version_lookup (m : MessageObj) (h : wellTyped m = true) :
    ∃ n, lookupKey "version" m.fields = some (Py.int n) := by
  obtain ⟨v, hl, hty⟩ := fieldsMatch_lookup m.cls (schemaFields m.cls) m.fields h
    (schema_names_nodup m.cls) "version" true (version_mem_schema m.cls)
  cases v <;> simp [fieldTypeOk, Py.isInt] at hty
  case int n => exact ⟨n, hl⟩

/- Behavior of create and deserialize on the inputs the claims concern. -/

theorem create_dup (t : MessageType) (kwargs : List (String × Py)) (w : Py)
    (h : lookupKey "version" (delKey FIELD_MSG_TYPE kwargs) = some w) :
    create t kwargs = Except.error (PyErr.typeError dupVersionMsg) := by
  simp only [create, h, Option.isSome_some, if_true]

theorem deser_tag (d : List (String × Py)) (v : Py) (t : MessageType)
    (h1 : lookupKey FIELD_MSG_TYPE d = some v)
    (h2 : pyToMessageType v = some t) :
    deserialize d = (create t (setKey FIELD_MSG_TYPE (Py.enum t) d),
      setKey FIELD_MSG_TYPE (Py.enum t) d) := by
  simp only [deserialize, h1, h2, mem_message_type_map, if_true]

theorem deser_version_dup (d : List (String × Py)) (v : Py) (t : MessageType)
    (w : Py)
    (h1 : lookupKey FIELD_MSG_TYPE d = some v)
    (h2 : pyToMessageType v = some t)
    (h3 : lookupKey "version" d = some w) :
    (deserialize d).1 = Except.error (PyErr.typeError dupVersionMsg) := by
  rw [deser_tag d v t h1 h2]
  have htv : FIELD_MSG_TYPE ≠ "version" := by decide
  apply create_dup t _ w
  rw [lookupKey_delKey_ne _ _ _ htv]
  rw [lookupKey_setKey_ne _ _ _ _ htv]
  exact h3

theorem create_missing_typeError (t : MessageType)
    (kwargs : List (String × Py)) (f : String)
    (hf : (f, true) ∈ schemaFields t)
    (hfv : f ≠ "version") (hft : ¬ (f = FIELD_MSG_TYPE))
    (hmiss : lookupKey f kwargs = Option.none) :
    isTypeError (create t kwargs) = true := by
  rcases hv : lookupKey "version" (delKey FIELD_MSG_TYPE kwargs) with _ | w
  · have hcall : lookupKey f
        ((FIELD_MSG_TYPE, Py.enum t) ::
          ("version", Py.int PROTOCOL_VERSION) :: delKey FIELD_MSG_TYPE kwargs)
        = Option.none := by
      have h1 : ¬ (FIELD_MSG_TYPE = f) := fun hc => hft hc.symm
      have h2 : ¬ (("version" : String) = f) := fun hc => hfv hc.symm
      simp only [lookupKey, h1, h2, if_false]
      rw [lookupKey_delKey_ne _ _ _ (fun hc => hft hc.symm)]
      exact hmiss
    rcases hfd : (delKey FIELD_MSG_TYPE kwargs).find?
        (fun p => !(fieldNames t).any (fun n => decide (n = p.1))) with _ | p
    · have hsome : ((schemaFields t).find?
          (fun f => f.2 && (lookupKey f.1
            ((FIELD_MSG_TYPE, Py.enum t) ::
              ("version", Py.int PROTOCOL_VERSION) ::
                delKey FIELD_MSG_TYPE kwargs)).isNone)).isSome = true := by
        apply find?_isSome_of_mem _ _ (f, true) hf
        simp [hcall]
      rcases hg : (schemaFields t).find?
          (fun f => f.2 && (lookupKey f.1
            ((FIELD_MSG_TYPE, Py.enum t) ::
              ("version", Py.int PROTOCOL_VERSION) ::
                delKey FIELD_MSG_TYPE kwargs)).isNone) with _ | g
      · rw [hg] at hsome; cases hsome
      · simp only [create, hv, Option.isSome_none, Bool.false_eq_true,
          if_false, hfd, hg, isTypeError]
    · simp only [create, hv, Option.isSome_none, Bool.false_eq_true,
        if_false, hfd, isTypeError]
  · simp only [create, hv, Option.isSome_some, if_true, isTypeError]

theorem create_extra_typeError (t : MessageType)
    (kwargs : List (String × Py)) (k : String) (w : Py)
    (hk : lookupKey k kwargs = some w)
    (hnames : (fieldNames t).any (fun n => decide (n = k)) = false) :
    isTypeError (create t kwargs) = true := by
  have hkt : ¬ (k = FIELD_MSG_TYPE) := by
    intro hc
    rw [hc] at hnames
    rw [type_in_names t] at hnames
    cases hnames
  rcases hv : lookupKey "version" (delKey FIELD_MSG_TYPE kwargs) with _ | w2
  · have hkw : lookupKey k (delKey FIELD_MSG_TYPE kwargs) = some w := by
      rw [lookupKey_delKey_ne _ _ _ (fun hc => hkt hc.symm)]
      exact hk
    have hsome : ((delKey FIELD_MSG_TYPE kwargs).find?
        (fun p => !(fieldNames t).any (fun n => decide (n = p.1)))).isSome
        = true := by
      apply find?_isSome_of_mem _ _ (k, w) (lookupKey_mem _ _ _ hkw)
      simp [hnames]
    rcases hfd : (delKey FIELD_MSG_TYPE kwargs).find?
        (fun p => !(fieldNames t).any (fun n => decide (n = p.1))) with _ | p
    · rw [hfd] at hsome; cases hsome
    · simp only [create, hv, Option.isSome_none, Bool.false_eq_true,
        if_false, hfd, isTypeError]
  · simp only [create, hv, Option.isSome_some, if_true, isTypeError]

theorem serialize_wellTyped (m : MessageObj) (h : wellTyped m = true) :
    serialize m =
      Except.ok (setKey FIELD_MSG_TYPE (Py.str (tag m.cls)) m.fields) := by
  simp only [serialize, wellTyped_type_lookup m h]

/- Concrete documents and instances used by the claims. -/

def noTypeDoc : List (String × Py) := [("version", Py.int 1)]

def zzzDoc : List (String × Py) := [("type", Py.str "zzz"), ("version", Py.int 1)]

def accMissingDoc : List (String × Py) :=
  [("type", Py.str "acc"), ("version", Py.int 1)]

def conExtraDoc : List (String × Py) :=
  [("type", Py.str "con"), ("app", Py.str "a1"), ("extra", Py.int 5)]

def conClientDoc : List (String × Py) :=
  [("type", Py.str "con"), ("version", Py.int 1), ("client", Py.str "c1")]

def conGoodDoc : List (String × Py) :=
  [("type", Py.str "con"), ("app", Py.str "a1")]

def errMutDoc : List (String × Py) :=
  [("type", Py.str "err"), ("error", Py.str "x")]

def errVersionDoc : List (String × Py) :=
  [("type", Py.str "err"), ("version", Py.int 2), ("error", Py.str "x")]

def connObj : MessageObj :=
  ⟨.CONNECT, [("version", Py.int 1), ("type", Py.enum .CONNECT),
    ("app", Py.str "a1")]⟩

def errObj : MessageObj :=
  ⟨.ERROR, [("version", Py.int 1), ("type", Py.enum .ERROR),
    ("error", Py.str "x")]⟩

def accObjPartial : MessageObj :=
  ⟨.ACCESS, [("version", Py.int 1), ("type", Py.enum .ACCESS),
    ("accepted", Py.bool false), ("client", Py.str "c1"),
    ("app", Py.none), ("reason", Py.none)]⟩

/-- Claim C1 (code bug): deserialize of serialize never succeeds.  For
every well-typed, fully constructed message, serialize emits the version
field, and create then passes version both explicitly and through the
document kwargs, so the constructor call raises TypeError instead of
returning the message. -/
theorem roundtrip_always_fails (m : MessageObj) (d : List (String × Py))
    (hm : wellTyped m = true) (hs : serialize m = Except.ok d) :
    (deserialize d).1 = Except.error (PyErr.typeError dupVersionMsg) := by
  rw [serialize_wellTyped m hm] at hs
  have hd : d = setKey FIELD_MSG_TYPE (Py.str (tag m.cls)) m.fields :=
    (Except.ok.inj hs).symm
  subst hd
  obtain ⟨n, hver⟩ := wellTyped_version_lookup m hm
  apply deser_version_dup _ (Py.str (tag m.cls)) m.cls (Py.int n)
  · exact lookupKey_setKey_self _ _ _
  · simp [pyToMessageType, tagOf_tag]
  · rw [lookupKey_setKey_ne _ _ _ _ (by decide)]
    exact hver

/-- Witness for C1 at a concrete ConnectMessage. -/
theorem roundtrip_always_fails_witness :
    (deserialize [("version", Py.int 1), ("type", Py.str "con"),
      ("app", Py.str "a1")]).1
      = Except.error (PyErr.typeError dupVersionMsg) :=
  roundtrip_always_fails connObj
    [("version", Py.int 1), ("type", Py.str "con"), ("app", Py.str "a1")]
    rfl rfl

/-- Claim C2 (code bug): on an unknown tag string the enum conversion
MessageType(data[FIELD_MSG_TYPE]) raises a plain ValueError before the
UnknownMessageTypeError branch is reached, so deserialize of the
document with type zzz fails with ValueError, not with the
UnknownMessageTypeError the spec requires; the input is left
unchanged. -/
theorem unknown_tag_raises_valueError :
    deserialize zzzDoc =
      (Except.error (PyErr.valueError "is not a valid MessageType"),
       zzzDoc) := rfl

/-- Counterexample for C3: the cited document with a recognized tag and
a missing required field fails with TypeError, not with
InvalidMessageSchemaError. -/
theorem missing_required_not_schema_error :
    isInvalidSchemaErr (deserialize accMissingDoc).1 = false ∧
    (deserialize accMissingDoc).1 =
      Except.error (PyErr.typeError dupVersionMsg) := ⟨rfl, rfl⟩

/-- Claim C3 (amended): for every document whose type value is a
recognized tag but which is missing a required non-version field of
that tag's schema, deserialize fails with a builtin TypeError from the
constructor call, not with InvalidMessageSchemaError. -/
theorem missing_required_raises_typeError (d : List (String × Py)) (v : Py)
    (t : MessageType) (f : String)
    (h1 : lookupKey FIELD_MSG_TYPE d = some v)
    (h2 : pyToMessageType v = some t)
    (hf : (f, true) ∈ schemaFields t)
    (hfv : f ≠ "version")
    (hmiss : lookupKey f d = Option.none) :
    isTypeError (deserialize d).1 = true := by
  have hft : ¬ (f = FIELD_MSG_TYPE) := by
    intro hc; rw [hc, h1] at hmiss; cases hmiss
  rw [deser_tag d v t h1 h2]
  apply create_missing_typeError t _ f hf hfv hft
  rw [lookupKey_setKey_ne _ _ _ _ (fun hc => hft hc.symm)]
  exact hmiss

/-- Witness for C3 at the cited document, with accepted the missing
required field. -/
theorem missing_required_raises_typeError_witness :
    isTypeError (deserialize accMissingDoc).1 = true :=
  missing_required_raises_typeError accMissingDoc (Py.str "acc")
    MessageType.ACCESS "accepted" rfl rfl (by decide) (by decide) rfl

/-- Counterexample for C4: a document that is valid for the con tag
except for one extra key fails with TypeError instead of ignoring the
extra key. -/
theorem extra_key_rejected_counter :
    exceptOk (deserialize conExtraDoc).1 = false ∧
    (deserialize conExtraDoc).1 =
      Except.error (PyErr.typeError (unexpectedKwMsg "extra")) := ⟨rfl, rfl⟩

/-- Claim C4 (amended): for every document whose type value is a
recognized tag and which contains a key outside the schema's declared
field names, deserialize fails with a builtin TypeError; extra keys are
rejected, not ignored. -/
theorem extra_key_raises_typeError (d : List (String × Py)) (v : Py)
    (t : MessageType) (k : String) (w : Py)
    (h1 : lookupKey FIELD_MSG_TYPE d = some v)
    (h2 : pyToMessageType v = some t)
    (hk : lookupKey k d = some w)
    (hnames : (fieldNames t).any (fun n => decide (n = k)) = false) :
    isTypeError (deserialize d).1 = true := by
  have hkt : ¬ (k = FIELD_MSG_TYPE) := by
    intro hc; rw [hc] at hnames; rw [type_in_names t] at hnames; cases hnames
  rw [deser_tag d v t h1 h2]
  apply create_extra_typeError t _ k w _ hnames
  rw [lookupKey_setKey_ne _ _ _ _ (fun hc => hkt hc.symm)]
  exact hk

/-- Witness for C4 at a concrete document carrying the extra key. -/
theorem extra_key_raises_typeError_witness :
    isTypeError (deserialize conExtraDoc).1 = true :=
  extra_key_raises_typeError conExtraDoc (Py.str "con") MessageType.CONNECT
    "extra" (Py.int 5) rfl rfl rfl rfl

/-- Counterexample for C5: a document that is valid for the err tag and
carries version 2 does not deserialize to a message carrying version 2;
it fails with TypeError. -/
theorem version_as_written_counter :
    exceptOk (deserialize errVersionDoc).1 = false ∧
    (deserialize errVersionDoc).1 =
      Except.error (PyErr.typeError dupVersionMsg) := ⟨rfl, rfl⟩

/-- Claim C5 (amended): for every document whose type value is a
recognized tag and which contains a version key with any value at all,
deserialize fails with TypeError, because create passes version both as
an explicit keyword and through the document kwargs; the codec never
returns the wire's version value. -/
theorem version_key_always_typeError (d : List (String × Py)) (v w : Py)
    (t : MessageType)
    (h1 : lookupKey FIELD_MSG_TYPE d = some v)
    (h2 : pyToMessageType v = some t)
    (h3 : lookupKey "version" d = some w) :
    (deserialize d).1 = Except.error (PyErr.typeError dupVersionMsg) :=
  deser_version_dup d v t w h1 h2 h3

/-- Witness for C5 at the concrete err document with version 2. -/
theorem version_key_always_typeError_witness :
    (deserialize errVersionDoc).1 =
      Except.error (PyErr.typeError dupVersionMsg) :=
  version_key_always_typeError errVersionDoc (Py.str "err") (Py.int 2)
    MessageType.ERROR rfl rfl rfl

/-- Counterexample for C6: an AccessMessage with only client set
serializes to a document in which the app and reason keys are present
and mapped to None, not omitted. -/
theorem optional_none_not_omitted_counter :
    serialize accObjPartial =
      Except.ok [("version", Py.int 1), ("type", Py.str "acc"),
        ("accepted", Py.bool false), ("client", Py.str "c1"),
        ("app", Py.none), ("reason", Py.none)] := rfl

/-- Claim C6 (amended): serialize emits every declared field of a
well-typed message (dataclasses.asdict drops nothing): the output keys
are exactly the instance's field names, and every non-type field keeps
its value verbatim, so an absent optional field appears as None rather
than being omitted. -/
theorem serialize_keeps_all_fields (m : MessageObj)
    (hm : wellTyped m = true) :
    serialize m =
      Except.ok (setKey FIELD_MSG_TYPE (Py.str (tag m.cls)) m.fields) ∧
    (setKey FIELD_MSG_TYPE (Py.str (tag m.cls)) m.fields).map Prod.fst
      = m.fields.map Prod.fst ∧
    ∀ k, ¬ (k = FIELD_MSG_TYPE) →
      lookupKey k (setKey FIELD_MSG_TYPE (Py.str (tag m.cls)) m.fields)
        = lookupKey k m.fields := by
  refine ⟨serialize_wellTyped m hm, ?_, ?_⟩
  · exact map_fst_setKey _ _ (Py.enum m.cls) _ (wellTyped_type_lookup m hm)
  · intro k hk
    exact lookupKey_setKey_ne _ _ _ _ (fun hc => hk hc.symm)

/-- Witness for C6 at the partial-identity AccessMessage: its app value
None survives serialization under the app key. -/
theorem serialize_keeps_all_fields_witness :
    serialize accObjPartial =
      Except.ok (setKey FIELD_MSG_TYPE (Py.str (tag accObjPartial.cls))
        accObjPartial.fields) ∧
    lookupKey "app" (setKey FIELD_MSG_TYPE (Py.str (tag accObjPartial.cls))
        accObjPartial.fields)
      = lookupKey "app" accObjPartial.fields :=
  ⟨(serialize_keeps_all_fields accObjPartial rfl).1,
   (serialize_keeps_all_fields accObjPartial rfl).2.2 "app" (by decide)⟩

/-- Claim C7 (confirmed): for every document with no type key,
deserialize fails with InvalidMessageSchemaError, with a diagnostic
naming the missing discriminator field, and leaves the input
unchanged. -/
theorem missing_type_invalid_schema (d : List (String × Py))
    (h : lookupKey FIELD_MSG_TYPE d = Option.none) :
    deserialize d = (Except.error (PyErr.invalidMessageSchema
      "Message does not contain required field type"), d) := by
  simp only [deserialize, h]

/-- Witness for C7 at the cited document. -/
theorem missing_type_invalid_schema_witness :
    deserialize noTypeDoc = (Except.error (PyErr.invalidMessageSchema
      "Message does not contain required field type"), noTypeDoc) :=
  missing_type_invalid_schema noTypeDoc rfl

/-- Counterexample for C8: the cited document with type con, version 1
and client c1 does not deserialize successfully; it fails with
TypeError. -/
theorem con_client_doc_fails :
    exceptOk (deserialize conClientDoc).1 = false ∧
    (deserialize conClientDoc).1 =
      Except.error (PyErr.typeError dupVersionMsg) := ⟨rfl, rfl⟩

/-- Claim C8 (amended): ConnectMessage declares a single required app
string and no client field at all: a con document carrying app (and no
version) deserializes, while a con document carrying client is rejected
with an unexpected-keyword TypeError. -/
theorem connect_schema_shape :
    schemaFields MessageType.CONNECT =
      [("version", true), ("type", true), ("app", true)] ∧
    (deserialize conGoodDoc).1 =
      Except.ok ⟨MessageType.CONNECT,
        [("version", Py.int 1), ("type", Py.enum MessageType.CONNECT),
         ("app", Py.str "a1")]⟩ ∧
    (deserialize [("type", Py.str "con"), ("client", Py.str "c1")]).1 =
      Except.error (PyErr.typeError (unexpectedKwMsg "client")) :=
  ⟨rfl, rfl, rfl⟩

/-- Claim C9 (confirmed): serialize succeeds on every well-typed, fully
constructed message; its failure branches are unreachable for such
input. -/
theorem serialize_total (m : MessageObj) (h : wellTyped m = true) :
    exceptOk (serialize m) = true := by
  rw [serialize_wellTyped m h]
  rfl

/-- Witness for C9 at a concrete ErrorMessage. -/
theorem serialize_total_witness : exceptOk (serialize errObj) = true :=
  serialize_total errObj rfl

/-- Counterexample for C10: deserialize of a valid err document hands
back a changed input dict, so deserialize is not side-effect-free over
its input. -/
theorem deserialize_mutates_input_counter :
    ¬ ((deserialize errMutDoc).2 = errMutDoc) := by
  intro h
  have h2 : (deserialize errMutDoc).2 =
      [("type", Py.enum MessageType.ERROR), ("error", Py.str "x")] := rfl
  rw [h2] at h
  simp [errMutDoc] at h

/-- Claim C10 (amended): deserialize leaves its input unchanged only
when the type key is missing or its value fails enum conversion;
whenever the type value resolves to a MessageType member the input
document's type entry is overwritten in place with that member, whether
construction then succeeds or fails. -/
theorem deserialize_input_effect :
    (∀ d, lookupKey FIELD_MSG_TYPE d = Option.none →
      (deserialize d).2 = d) ∧
    (∀ d v, lookupKey FIELD_MSG_TYPE d = some v →
      pyToMessageType v = Option.none → (deserialize d).2 = d) ∧
    (∀ d v t, lookupKey FIELD_MSG_TYPE d = some v →
      pyToMessageType v = some t →
      (deserialize d).2 = setKey FIELD_MSG_TYPE (Py.enum t) d) := by
  refine ⟨?_, ?_, ?_⟩
  · intro d h
    simp only [deserialize, h]
  · intro d v h1 h2
    simp only [deserialize, h1, h2]
  · intro d v t h1 h2
    rw [deser_tag d v t h1 h2]

/-- Witness for C10 at the concrete err document. -/
theorem deserialize_input_effect_witness :
    (deserialize errMutDoc).2 =
      setKey FIELD_MSG_TYPE (Py.enum MessageType.ERROR) errMutDoc :=
  deserialize_input_effect.2.2 errMutDoc (Py.str "err") MessageType.ERROR
    rfl rfl
